import Mathlib

/-!
Shallow embedding of the QA-suite orchestrator
`scripts/run_qa_suite.py` of the healthAPI-quality-assurance-framework
repository, and proofs about it.

The orchestrator runs external commands; we model the ambient world as a
function `env : String → CmdOutcome` giving, for each sub-command name
(names are pairwise distinct in the script), how the child process would
behave.  The result dictionaries of the Python code are open string-keyed
maps; we model them as structures whose `Option` fields record keys that
the code sometimes omits (`none` = the key is absent from the dict).
Wall-clock fields (`timestamp`, `total_duration`) and report-file output
are ambient I/O not touched by any property proved here and are omitted.
The filesystem state relevant to the script is the `tests/unit` directory;
we model it explicitly.
-/

namespace QASuite

/-- How the child process of one `subprocess.run` invocation behaves:
it completes with an exit code, output and elapsed time; or it exceeds the
timeout (`subprocess.TimeoutExpired`); or launching raises some other
exception with a message. -/
inductive CmdOutcome where
  | completed (returncode : Int) (stdout : String) (stderr : String) (elapsed : ℚ)
  | timedOut
  | raised (msg : String)
deriving DecidableEq

/-- The dict returned by `QASuiteRunner.run_command`.  `Option` fields are
keys that only some branches write; the source never writes a `timed_out`
key, so that field is `none` in every branch. -/
structure ExecutionResult where
  name : String
  success : Bool
  duration : Option ℚ
  stdout : Option String
  stderr : Option String
  return_code : Option Int
  error : Option String
  timed_out : Option Bool
deriving DecidableEq

/-- Model of `QASuiteRunner.run_command(cmd, name, timeout)`: runs the command and
builds the result dict.  On completion success is `returncode == 0`; on
`TimeoutExpired` it returns success `false`, duration equal to the timeout,
and `error = "Timeout"`; on any other exception it returns success `false`
and the exception message, with no duration. -/
def run_command (env : String → CmdOutcome) (cmd : List String) (name : String)
    (timeLimit : ℚ) : ExecutionResult :=
  match env name with
  | .completed rc out err elapsed =>
      { name := name, success := rc == 0, duration := some elapsed,
        stdout := some out, stderr := some err, return_code := some rc,
        error := none, timed_out := none }
  | .timedOut =>
      { name := name, success := false, duration := some timeLimit,
        stdout := none, stderr := none, return_code := none,
        error := some "Timeout", timed_out := none }
  | .raised msg =>
      { name := name, success := false, duration := none,
        stdout := none, stderr := none, return_code := none,
        error := some msg, timed_out := none }

/-- The dict returned by each category runner, and (with `results := none`)
the error dict recorded by `run_full_suite` when a runner raises.  Only the
code-quality runner writes a `success_rate` key. -/
structure CategoryResult where
  category : String
  results : Option (List ExecutionResult)
  passed : Bool
  success_rate : Option ℚ
  error : Option String
deriving DecidableEq

/-- The `tests/unit` directory: whether it exists and its files as
(name, content) pairs. -/
structure FileSystem where
  unitDirExists : Bool
  unitFiles : List (String × String)
deriving DecidableEq

/-- One category runner invocation: its returned dict, the names of the
Command Executor invocations it made (in order), and the filesystem after
it ran. -/
structure CategoryRun where
  result : CategoryResult
  commands : List String
  fs : FileSystem
deriving DecidableEq

/-- The fixed (command, name) table of `run_code_quality_checks`. -/
def qualityChecks : List (List String × String) :=
  [ (["black", "--check", "api/", "tests/"], "Black Code Formatting"),
    (["isort", "--check-only", "api/", "tests/"], "Import Sorting"),
    (["flake8", "api/", "tests/"], "Flake8 Linting"),
    (["pylint", "api/", "tests/", "--fail-under=8.0"], "Pylint Analysis"),
    (["bandit", "-r", "api/"], "Security Analysis"),
    (["safety", "check"], "Dependency Security") ]

/-- Model of `QASuiteRunner.run_code_quality_checks`: runs each of the six tools with
the default 300 s timeout, counts successes, and reports
`success_rate = success_count / len(results)` and
`passed = (success_count == len(results))`. -/
def run_code_quality_checks (env : String → CmdOutcome) (fs : FileSystem) :
    CategoryRun :=
  let results := qualityChecks.map (fun c => run_command env c.1 c.2 300)
  let success_count := (results.filter (fun r => r.success)).length
  { result :=
      { category := "code_quality", results := some results,
        success_rate := some ((success_count : ℚ) / (results.length : ℚ)),
        passed := success_count == results.length, error := none },
    commands := qualityChecks.map (fun c => c.2),
    fs := fs }

/-- The glob pattern `test_*.py` used on `tests/unit`: the name starts with
`test_`, ends with `.py`, and is long enough that the two do not overlap
(`*` may match the empty string). -/
def matchesTestGlob (fileName : String) : Bool :=
  "test_".data.isPrefixOf fileName.data
  && ".py".data.isSuffixOf fileName.data
  && decide (8 ≤ fileName.length)

/-- The text `run_unit_tests` writes to `tests/unit/test_basic.py` when the
directory holds no `test_*.py` file. -/
def basicTestText : String :=
  "\n# Basic unit test\ndef test_basic():\n    assert True\n"

/-- The pytest command line of `run_unit_tests`. -/
def unitTestsCmd : List String :=
  ["pytest", "tests/unit/", "--cov=api",
   "--cov-report=html:docs/coverage_report/htmlcov",
   "--cov-report=xml:docs/coverage_report/coverage.xml",
   "--cov-report=term-missing",
   "--junit-xml=docs/coverage_report/unit-tests.xml", "-v"]

/-- Model of `QASuiteRunner.run_unit_tests`: creates `tests/unit` if absent
(`mkdir(exist_ok=True)`), writes a basic placeholder test when the directory
holds no `test_*.py` file, then runs pytest once. -/
def run_unit_tests (env : String → CmdOutcome) (fs : FileSystem) : CategoryRun :=
  let fs1 : FileSystem :=
    if fs.unitDirExists then fs else { unitDirExists := true, unitFiles := [] }
  let fs2 : FileSystem :=
    if (fs1.unitFiles.filter (fun f => matchesTestGlob f.1)).isEmpty then
      { fs1 with unitFiles := fs1.unitFiles ++ [("test_basic.py", basicTestText)] }
    else fs1
  let result := run_command env unitTestsCmd "Unit Tests" 300
  { result :=
      { category := "unit_tests", results := some [result],
        passed := result.success, success_rate := none, error := none },
    commands := ["Unit Tests"],
    fs := fs2 }

/-- The pytest command line of `run_functional_tests`. -/
def functionalTestsCmd : List String :=
  ["pytest", "tests/functional/",
   "--html=docs/coverage_report/functional-report.html",
   "--self-contained-html",
   "--junit-xml=docs/coverage_report/functional-tests.xml", "-v"]

/-- Model of `QASuiteRunner.run_functional_tests`: one pytest invocation. -/
def run_functional_tests (env : String → CmdOutcome) (fs : FileSystem) :
    CategoryRun :=
  let result := run_command env functionalTestsCmd "Functional Tests" 300
  { result :=
      { category := "functional_tests", results := some [result],
        passed := result.success, success_rate := none, error := none },
    commands := ["Functional Tests"],
    fs := fs }

/-- The pytest command line of `run_integration_tests`. -/
def integrationTestsCmd : List String :=
  ["pytest", "tests/integration/",
   "--html=docs/coverage_report/integration-report.html",
   "--self-contained-html",
   "--junit-xml=docs/coverage_report/integration-tests.xml", "-v"]

/-- Model of `QASuiteRunner.run_integration_tests`: one pytest invocation. -/
def run_integration_tests (env : String → CmdOutcome) (fs : FileSystem) :
    CategoryRun :=
  let result := run_command env integrationTestsCmd "Integration Tests" 300
  { result :=
      { category := "integration_tests", results := some [result],
        passed := result.success, success_rate := none, error := none },
    commands := ["Integration Tests"],
    fs := fs }

/-- The pytest command line of `run_contract_tests`. -/
def contractTestsCmd : List String :=
  ["pytest", "tests/contracts/",
   "--html=docs/coverage_report/contracts-report.html",
   "--self-contained-html",
   "--junit-xml=docs/coverage_report/contracts-tests.xml", "-v"]

/-- Model of `QASuiteRunner.run_contract_tests`: one pytest invocation. -/
def run_contract_tests (env : String → CmdOutcome) (fs : FileSystem) :
    CategoryRun :=
  let result := run_command env contractTestsCmd "Contract Tests" 300
  { result :=
      { category := "contract_tests", results := some [result],
        passed := result.success, success_rate := none, error := none },
    commands := ["Contract Tests"],
    fs := fs }

/-- The locust command line of `run_performance_tests`. -/
def performanceTestsCmd : List String :=
  ["locust", "-f", "tests/performance/locustfile.py", "--headless",
   "--users", "10", "--spawn-rate", "2", "--run-time", "60s",
   "--host", "http://localhost:8000",
   "--html", "docs/coverage_report/performance-report.html"]

/-- Model of `QASuiteRunner.run_performance_tests`: one locust invocation with a
120 s timeout. -/
def run_performance_tests (env : String → CmdOutcome) (fs : FileSystem) :
    CategoryRun :=
  let result := run_command env performanceTestsCmd "Performance Tests" 120
  { result :=
      { category := "performance_tests", results := some [result],
        passed := result.success, success_rate := none, error := none },
    commands := ["Performance Tests"],
    fs := fs }

/-- The pytest command line of `run_security_tests`. -/
def securityTestsCmd : List String :=
  ["pytest", "tests/security/",
   "--html=docs/coverage_report/security-report.html",
   "--self-contained-html",
   "--junit-xml=docs/coverage_report/security-tests.xml",
   "-v", "-m", "security"]

/-- Model of `QASuiteRunner.run_security_tests`: one pytest invocation. -/
def run_security_tests (env : String → CmdOutcome) (fs : FileSystem) :
    CategoryRun :=
  let result := run_command env securityTestsCmd "Security Tests" 300
  { result :=
      { category := "security_tests", results := some [result],
        passed := result.success, success_rate := none, error := none },
    commands := ["Security Tests"],
    fs := fs }

/-- The category order of the `test_categories` table in `run_full_suite`. -/
def test_categories : List String :=
  ["code_quality", "unit_tests", "functional_tests", "integration_tests",
   "contract_tests", "performance_tests", "security_tests"]

/-- Dispatch from a category name to its runner, as both the
`test_categories` table of `run_full_suite` and the `category_methods` dict
of `main` pair these names with these methods.  The final branch is
unreachable for the seven listed names. -/
def runCategoryByName (env : String → CmdOutcome) (name : String)
    (fs : FileSystem) : CategoryRun :=
  if name = "code_quality" then run_code_quality_checks env fs
  else if name = "unit_tests" then run_unit_tests env fs
  else if name = "functional_tests" then run_functional_tests env fs
  else if name = "integration_tests" then run_integration_tests env fs
  else if name = "contract_tests" then run_contract_tests env fs
  else if name = "performance_tests" then run_performance_tests env fs
  else if name = "security_tests" then run_security_tests env fs
  else
    { result := { category := name, results := none, passed := false,
                  success_rate := none, error := none },
      commands := [], fs := fs }

/-- The summary dict built by `generate_summary_report` (wall-clock fields
omitted). -/
structure SuiteSummary where
  total_categories : Nat
  passed_categories : Nat
  success_rate : ℚ
  overall_status : String
  categories : List (String × CategoryResult)
deriving DecidableEq

/-- Model of `QASuiteRunner.generate_summary_report` over `self.results` (an
insertion-ordered dict, modelled as an association list). -/
def generate_summary_report (results : List (String × CategoryResult)) :
    SuiteSummary :=
  let total_categories := results.length
  let passed_categories := (results.filter (fun r => r.2.passed)).length
  { total_categories := total_categories,
    passed_categories := passed_categories,
    success_rate :=
      if 0 < total_categories then
        (passed_categories : ℚ) / (total_categories : ℚ)
      else 0,
    overall_status :=
      if passed_categories = total_categories then "PASSED" else "FAILED",
    categories := results }

/-- The error dict `run_full_suite` records when a category runner raises:
`{"category": name, "passed": False, "error": str(e)}`. -/
def errorCategoryResult (name msg : String) : CategoryResult :=
  { category := name, results := none, passed := false,
    success_rate := none, error := some msg }

/-- Mutable state of the suite loop: `self.results`, plus the instrumented
trace of Command Executor invocations and the filesystem. -/
structure SuiteState where
  results : List (String × CategoryResult)
  commands : List String
  fs : FileSystem
deriving DecidableEq

/-- One iteration of the `run_full_suite` loop.  `exc name = some msg`
models the runner for `name` raising an exception with message `msg`: the
`except` branch records a failed error dict for that category and the loop
continues. -/
def suiteStep (exc : String → Option String) (env : String → CmdOutcome)
    (s : SuiteState) (name : String) : SuiteState :=
  match exc name with
  | some msg =>
      { s with results := s.results ++ [(name, errorCategoryResult name msg)] }
  | none =>
      let run := runCategoryByName env name s.fs
      { results := s.results ++ [(name, run.result)],
        commands := s.commands ++ run.commands,
        fs := run.fs }

/-- Outcome of a full-suite run: the summary, the executor trace, the final
filesystem, and the boolean `run_full_suite` returns. -/
structure SuiteRun where
  summary : SuiteSummary
  commands : List String
  fs : FileSystem
  success : Bool
deriving DecidableEq

/-- Model of `QASuiteRunner.run_full_suite`: runs the seven categories in the fixed
order, catching runner exceptions per category, then generates the summary
report and returns `overall_status == "PASSED"`. -/
def run_full_suite (exc : String → Option String) (env : String → CmdOutcome)
    (fs : FileSystem) : SuiteRun :=
  let s := test_categories.foldl (suiteStep exc env)
    { results := [], commands := [], fs := fs }
  let summary := generate_summary_report s.results
  { summary := summary, commands := s.commands, fs := s.fs,
    success := summary.overall_status == "PASSED" }

/-- The `choices` list of the `--category` argparse argument. -/
def argparseChoices : List String :=
  ["code_quality", "unit_tests", "functional_tests", "integration_tests",
   "contract_tests", "performance_tests", "security_tests"]

/-- The keys of the `category_methods` dict in `main`. -/
def categoryMethodKeys : List String :=
  ["code_quality", "unit_tests", "functional_tests", "integration_tests",
   "contract_tests", "performance_tests", "security_tests"]

/-- Observable outcome of one CLI invocation: the process exit code, the
executor trace, the suite summary when one was generated, the single
category result in single-category mode, and the final filesystem. -/
structure MainRun where
  exitCode : Nat
  commands : List String
  summary : Option SuiteSummary
  singleResult : Option CategoryResult
  fs : FileSystem
deriving DecidableEq

/-- The `main` entry point.  With no `--category` it runs the full suite
and exits 0 on overall pass, 1 otherwise.  With `--category NAME`, argparse
first rejects any value outside `choices`, printing a usage error and
exiting with status 2 before anything runs; for an accepted value, `main`
looks the name up in `category_methods`, runs just that runner, and exits
0 when its `passed` flag is true, 1 otherwise.  The inner else branch
(lookup miss) prints an invalid-category message and exits 1; it is
unreachable because `categoryMethodKeys` lists the same names as
`argparseChoices`. -/
def main (exc : String → Option String) (env : String → CmdOutcome)
    (fs : FileSystem) (categoryArg : Option String) : MainRun :=
  match categoryArg with
  | Option.none =>
      let run := run_full_suite exc env fs
      { exitCode := if run.success then 0 else 1, commands := run.commands,
        summary := some run.summary, singleResult := none, fs := run.fs }
  | Option.some name =>
      if argparseChoices.contains name then
        if categoryMethodKeys.contains name then
          let run := runCategoryByName env name fs
          { exitCode := if run.result.passed then 0 else 1,
            commands := run.commands, summary := none,
            singleResult := some run.result, fs := run.fs }
        else
          { exitCode := 1, commands := [], summary := none,
            singleResult := none, fs := fs }
      else
        { exitCode := 2, commands := [], summary := none,
          singleResult := none, fs := fs }

/-! ## Helper lemmas -/

lemma generate_summary_report_status_iff_counts
    (results : List (String × CategoryResult)) :
    (generate_summary_report results).overall_status = "PASSED" ↔
      (generate_summary_report results).passed_categories =
        (generate_summary_report results).total_categories := by
  simp only [generate_summary_report]
  split_ifs with h
  · simp [h]
  · simp only [h, iff_false]
    decide

lemma generate_summary_report_counts_iff_all
    (results : List (String × CategoryResult)) :
    (generate_summary_report results).passed_categories =
        (generate_summary_report results).total_categories ↔
      ∀ p ∈ (generate_summary_report results).categories, p.2.passed = true := by
  simp only [generate_summary_report]
  exact List.filter_length_eq_length

lemma run_full_suite_summary_eq (exc : String → Option String)
    (env : String → CmdOutcome) (fs : FileSystem) :
    (run_full_suite exc env fs).summary =
      generate_summary_report
        ((test_categories.foldl (suiteStep exc env)
          { results := [], commands := [], fs := fs }).results) := rfl

/-! ## Claim theorems -/

/-- C1: for every full-suite run, the summary produced by
`generate_summary_report` has `overall_status = "PASSED"` iff every recorded
category result has `passed = true`, equivalently iff
`passed_categories = total_categories`. -/
theorem suite_overall_status_iff_all_passed (exc : String → Option String)
    (env : String → CmdOutcome) (fs : FileSystem) :
    ((run_full_suite exc env fs).summary.overall_status = "PASSED" ↔
      ∀ p ∈ (run_full_suite exc env fs).summary.categories, p.2.passed = true)
    ∧ ((run_full_suite exc env fs).summary.overall_status = "PASSED" ↔
      (run_full_suite exc env fs).summary.passed_categories =
        (run_full_suite exc env fs).summary.total_categories) := by
  rw [run_full_suite_summary_eq]
  exact ⟨(generate_summary_report_status_iff_counts _).trans
      (generate_summary_report_counts_iff_all _),
    generate_summary_report_status_iff_counts _⟩

/-- C9: `generate_summary_report` on an empty results mapping yields
`total_categories = 0`, `success_rate = 0` (the division is guarded), and
`overall_status = "PASSED"` since `passed_categories = total_categories`
holds vacuously. -/
theorem generate_summary_report_empty :
    generate_summary_report [] =
      { total_categories := 0, passed_categories := 0, success_rate := 0,
        overall_status := "PASSED", categories := [] } := rfl

/-- C2 counterexample: the claim as stated is false.  For a concrete timed-out
invocation (the performance command with its 120 s timeout), the returned
dict does have `success = false`, no exit code, and duration 120, but it
carries no `timed_out` key at all (the field is `none`, not `some true`):
the timeout branch writes only `name`, `success`, `duration` and
`error = "Timeout"`. -/
theorem timeout_claim_counterexample :
    ¬ ((run_command (fun _ => CmdOutcome.timedOut) performanceTestsCmd
          "Performance Tests" 120).success = false
       ∧ (run_command (fun _ => CmdOutcome.timedOut) performanceTestsCmd
          "Performance Tests" 120).timed_out = some true
       ∧ (run_command (fun _ => CmdOutcome.timedOut) performanceTestsCmd
          "Performance Tests" 120).return_code = none
       ∧ (run_command (fun _ => CmdOutcome.timedOut) performanceTestsCmd
          "Performance Tests" 120).duration = some 120) := by
  intro h
  have h2 : (none : Option Bool) = some true := h.2.1
  simp at h2

/-- C2 amended: when the child process exceeds the configured timeout,
`run_command` returns `success = false`, no exit code, duration equal to the
timeout value, and signals the timeout through `error = "Timeout"`; the
returned dict contains no `timed_out` key. -/
theorem timeout_result_shape (env : String → CmdOutcome) (cmd : List String)
    (name : String) (timeLimit : ℚ) (h : env name = CmdOutcome.timedOut) :
    (run_command env cmd name timeLimit).success = false
    ∧ (run_command env cmd name timeLimit).return_code = none
    ∧ (run_command env cmd name timeLimit).duration = some timeLimit
    ∧ (run_command env cmd name timeLimit).error = some "Timeout"
    ∧ (run_command env cmd name timeLimit).timed_out = none := by
  simp [run_command, h]

/-- C2 witness: the amended theorem applied to a concrete timed-out world. -/
theorem timeout_result_shape_witness :
    (run_command (fun _ => CmdOutcome.timedOut) performanceTestsCmd
        "Performance Tests" 120).success = false
    ∧ (run_command (fun _ => CmdOutcome.timedOut) performanceTestsCmd
        "Performance Tests" 120).return_code = none
    ∧ (run_command (fun _ => CmdOutcome.timedOut) performanceTestsCmd
        "Performance Tests" 120).duration = some 120
    ∧ (run_command (fun _ => CmdOutcome.timedOut) performanceTestsCmd
        "Performance Tests" 120).error = some "Timeout"
    ∧ (run_command (fun _ => CmdOutcome.timedOut) performanceTestsCmd
        "Performance Tests" 120).timed_out = none :=
  timeout_result_shape (fun _ => CmdOutcome.timedOut) performanceTestsCmd
    "Performance Tests" 120 rfl

/-- C7 counterexample: not every category runner dict carries a
`success_rate` key.  For a concrete world in which pytest succeeds, the
`unit_tests` runner returns a CategoryResult with no `success_rate` field:
only the code-quality runner writes that key. -/
theorem unit_tests_lacks_success_rate :
    (run_unit_tests (fun _ => CmdOutcome.completed 0 "" "" 1)
        ⟨true, []⟩).result.success_rate = none := rfl

/-- C7 amended: only the code-quality runner CategoryResult contains a
`success_rate`, and that rate always lies in `[0, 1]`; the other six
CategoryResults of the other runners contain no `success_rate` field. -/
theorem success_rate_field_presence (env : String → CmdOutcome)
    (fs : FileSystem) :
    (∃ q, (run_code_quality_checks env fs).result.success_rate = some q
        ∧ 0 ≤ q ∧ q ≤ 1)
    ∧ (run_unit_tests env fs).result.success_rate = none
    ∧ (run_functional_tests env fs).result.success_rate = none
    ∧ (run_integration_tests env fs).result.success_rate = none
    ∧ (run_contract_tests env fs).result.success_rate = none
    ∧ (run_performance_tests env fs).result.success_rate = none
    ∧ (run_security_tests env fs).result.success_rate = none := by
  refine ⟨?_, rfl, rfl, rfl, rfl, rfl, rfl⟩
  have hlen : (qualityChecks.map (fun c => run_command env c.1 c.2 300)).length
      = 6 := by simp [qualityChecks]
  have hk6 : ((qualityChecks.map (fun c => run_command env c.1 c.2 300)).filter
      (fun r => r.success)).length ≤ 6 :=
    hlen ▸ List.length_filter_le _ _
  refine ⟨(((qualityChecks.map (fun c => run_command env c.1 c.2 300)).filter
      (fun r => r.success)).length : ℚ) /
      ((qualityChecks.map (fun c => run_command env c.1 c.2 300)).length : ℚ),
    rfl, ?_, ?_⟩
  · exact div_nonneg (Nat.cast_nonneg _) (Nat.cast_nonneg _)
  · rw [hlen, div_le_one (by norm_num)]
    exact_mod_cast hk6

/-- C8 counterexample: a `--category=unit_tests` invocation produces no
suite summary at all, so the summary cannot contain exactly one category
entry.  `main` in single-category mode never calls
`generate_summary_report`; it exits directly from the passed flag of the single runner —
`passed` flag. -/
theorem single_category_summary_counterexample :
    ¬ ∃ s, (main (fun _ => none) (fun _ => CmdOutcome.completed 0 "" "" 1)
        ⟨true, []⟩ (some "unit_tests")).summary = some s
        ∧ s.categories.length = 1 := by
  rintro ⟨s, hs, -⟩
  exact Option.noConfusion (show (none : Option SuiteSummary) = some s from hs)

/-- C8 amended: with `--category=unit_tests` only the unit category
executes — the executor trace is exactly the single pytest invocation
`"Unit Tests"`, and the process outcome is the single unit-runner
CategoryResult — and no SuiteSummary is generated (single-category mode
does not call `generate_summary_report`). -/
theorem single_unit_category_isolation (exc : String → Option String)
    (env : String → CmdOutcome) (fs : FileSystem) :
    (main exc env fs (some "unit_tests")).commands = ["Unit Tests"]
    ∧ (main exc env fs (some "unit_tests")).singleResult =
        some (run_unit_tests env fs).result
    ∧ (main exc env fs (some "unit_tests")).summary = none := by
  have m1 : "unit_tests" ∈ argparseChoices := by decide
  have m2 : "unit_tests" ∈ categoryMethodKeys := by decide
  refine ⟨?_, ?_, ?_⟩ <;>
    simp [main, m1, m2, runCategoryByName, run_unit_tests]

lemma suiteFold_results_fst (exc : String → Option String)
    (env : String → CmdOutcome) :
    ∀ (names : List String) (s : SuiteState),
      ((names.foldl (suiteStep exc env) s).results).map Prod.fst =
        s.results.map Prod.fst ++ names := by
  intro names
  induction names with
  | nil => intro s; simp
  | cons hd tl ih =>
      intro s
      rw [List.foldl_cons, ih]
      cases h : exc hd <;> simp [suiteStep, h]

lemma suiteFold_results_mem (exc : String → Option String)
    (env : String → CmdOutcome) :
    ∀ (names : List String) (s : SuiteState) (p : String × CategoryResult),
      p ∈ s.results → p ∈ (names.foldl (suiteStep exc env) s).results := by
  intro names
  induction names with
  | nil => intro s p hp; simpa using hp
  | cons hd tl ih =>
      intro s p hp
      rw [List.foldl_cons]
      apply ih
      cases h : exc hd <;> simp [suiteStep, h] <;> exact Or.inl hp

lemma suiteFold_error_recorded (exc : String → Option String)
    (env : String → CmdOutcome) :
    ∀ (names : List String) (s : SuiteState) (name msg : String),
      name ∈ names → exc name = some msg →
      (name, errorCategoryResult name msg) ∈
        (names.foldl (suiteStep exc env) s).results := by
  intro names
  induction names with
  | nil => intro s name msg h _; cases h
  | cons hd tl ih =>
      intro s name msg hmem hexc
      rw [List.foldl_cons]
      rcases List.mem_cons.mp hmem with heq | htl
      · subst heq
        apply suiteFold_results_mem
        simp [suiteStep, hexc]
      · exact ih _ name msg htl hexc

/-- C3: when a category runner raises, `run_full_suite` records a failed
CategoryResult carrying the exception description for that category, every
category of the fixed sequence is still recorded (the category
names are exactly `test_categories` in order), and the summary is generated
over all recorded results. -/
theorem runner_exception_contained (exc : String → Option String)
    (env : String → CmdOutcome) (fs : FileSystem) (name msg : String)
    (h1 : name ∈ test_categories) (h2 : exc name = some msg) :
    (name, errorCategoryResult name msg) ∈
        (run_full_suite exc env fs).summary.categories
    ∧ (errorCategoryResult name msg).passed = false
    ∧ (errorCategoryResult name msg).error = some msg
    ∧ ((run_full_suite exc env fs).summary.categories).map Prod.fst =
        test_categories
    ∧ (run_full_suite exc env fs).summary =
        generate_summary_report
          ((run_full_suite exc env fs).summary.categories) := by
  refine ⟨?_, rfl, rfl, ?_, rfl⟩
  · exact suiteFold_error_recorded exc env test_categories _ name msg h1 h2
  · have := suiteFold_results_fst exc env test_categories
      { results := [], commands := [], fs := fs }
    simpa using this

/-- C3 witness: a concrete world where the functional runner raises. -/
theorem runner_exception_contained_witness :
    ("functional_tests", errorCategoryResult "functional_tests" "boom") ∈
        (run_full_suite
          (fun n => if n = "functional_tests" then some "boom" else none)
          (fun _ => CmdOutcome.completed 0 "" "" 1)
          ⟨true, []⟩).summary.categories
    ∧ ((run_full_suite
          (fun n => if n = "functional_tests" then some "boom" else none)
          (fun _ => CmdOutcome.completed 0 "" "" 1)
          ⟨true, []⟩).summary.categories).map Prod.fst = test_categories := by
  have h := runner_exception_contained
    (fun n => if n = "functional_tests" then some "boom" else none)
    (fun _ => CmdOutcome.completed 0 "" "" 1)
    ⟨true, []⟩ "functional_tests" "boom" (by decide) (by decide)
  exact ⟨h.1, h.2.2.2.1⟩

lemma ite_exit_code (b : Bool) :
    ((if b then 0 else 1 : Nat) = 0 ↔ b = true)
    ∧ ((if b then 0 else 1 : Nat) = 1 ↔ b = false) := by
  cases b <;> simp

/-- C4: for a valid selection the exit code is 0 iff the selected scope
passed — the full-suite `overall_status = "PASSED"` with no
`--category`, the selected category `passed` flag otherwise — and 1 iff
the selected scope failed. -/
theorem cli_exit_code_reflects_scope (exc : String → Option String)
    (env : String → CmdOutcome) (fs : FileSystem) :
    ((main exc env fs none).exitCode = 0 ↔
        (run_full_suite exc env fs).summary.overall_status = "PASSED")
    ∧ ((main exc env fs none).exitCode = 1 ↔
        (run_full_suite exc env fs).summary.overall_status ≠ "PASSED")
    ∧ (∀ name, name ∈ argparseChoices →
        (((main exc env fs (some name)).exitCode = 0 ↔
            (runCategoryByName env name fs).result.passed = true)
        ∧ ((main exc env fs (some name)).exitCode = 1 ↔
            (runCategoryByName env name fs).result.passed = false))) := by
  have hm : (main exc env fs none).exitCode =
      if ((run_full_suite exc env fs).summary.overall_status == "PASSED")
      then 0 else 1 := rfl
  refine ⟨?_, ?_, ?_⟩
  · rw [hm, (ite_exit_code _).1, beq_iff_eq]
  · rw [hm, (ite_exit_code _).2, beq_eq_false_iff_ne]
  · intro name hmem
    have hmem2 : name ∈ categoryMethodKeys := hmem
    have hm2 : (main exc env fs (some name)).exitCode =
        if (runCategoryByName env name fs).result.passed then 0 else 1 := by
      simp [main, hmem, hmem2]
    rw [hm2, (ite_exit_code _).1, (ite_exit_code _).2]
    exact ⟨Iff.rfl, Iff.rfl⟩

/-- C4 witness: with every command succeeding, a single-category run of
`unit_tests` exits 0. -/
theorem cli_exit_code_reflects_scope_witness :
    (main (fun _ => none) (fun _ => CmdOutcome.completed 0 "" "" 1)
        ⟨true, []⟩ (some "unit_tests")).exitCode = 0 := by
  have h := (cli_exit_code_reflects_scope (fun _ => none)
      (fun _ => CmdOutcome.completed 0 "" "" 1) ⟨true, []⟩).2.2
      "unit_tests" (by decide)
  exact h.1.mpr (by decide)

/-- C5: a `--category` value outside the fixed enumerated set is rejected
by argparse: the process exits with status 2 (non-zero) without running any
category — no Command Executor invocation happens, no summary and no
category result is produced, and the filesystem is untouched. -/
theorem unknown_category_usage_error (exc : String → Option String)
    (env : String → CmdOutcome) (fs : FileSystem) (name : String)
    (h : name ∉ argparseChoices) :
    (main exc env fs (some name)).exitCode = 2
    ∧ (main exc env fs (some name)).exitCode ≠ 0
    ∧ (main exc env fs (some name)).commands = []
    ∧ (main exc env fs (some name)).summary = none
    ∧ (main exc env fs (some name)).singleResult = none
    ∧ (main exc env fs (some name)).fs = fs := by
  simp [main, h]

/-- C5 witness: the concrete unknown name `"unit"` (a short
alias, which the CLI does not accept). -/
theorem unknown_category_usage_error_witness :
    (main (fun _ => none) (fun _ => CmdOutcome.completed 0 "" "" 1)
        ⟨true, []⟩ (some "unit")).exitCode = 2
    ∧ (main (fun _ => none) (fun _ => CmdOutcome.completed 0 "" "" 1)
        ⟨true, []⟩ (some "unit")).commands = [] := by
  have h := unknown_category_usage_error (fun _ => none)
    (fun _ => CmdOutcome.completed 0 "" "" 1) ⟨true, []⟩ "unit" (by decide)
  exact ⟨h.1, h.2.2.1⟩

/-- C6: the quality category runs six tools and reports
`success_rate = success_count / total_tools_run` and
`passed = (success_count == total_tools_run)`, where `success_count` counts
the tool invocations whose ExecutionResult succeeded; every other category
runs exactly one sub-command and its `passed` flag equals that single
result field `success`. -/
theorem quality_cardinality_and_pass_flags (env : String → CmdOutcome)
    (fs : FileSystem) :
    (((run_code_quality_checks env fs).result.results.getD []).length = 6
      ∧ (run_code_quality_checks env fs).result.success_rate =
          some ((((((run_code_quality_checks env fs).result.results.getD
            []).filter (fun r => r.success)).length : ℚ)) /
            ((((run_code_quality_checks env fs).result.results.getD
            []).length : ℚ)))
      ∧ ((run_code_quality_checks env fs).result.passed = true ↔
          ((((run_code_quality_checks env fs).result.results.getD
            []).filter (fun r => r.success)).length =
            (((run_code_quality_checks env fs).result.results.getD
            []).length))))
    ∧ (∀ name, name ∈ test_categories → name ≠ "code_quality" →
        (runCategoryByName env name fs).commands.length = 1
        ∧ ∃ r, (runCategoryByName env name fs).result.results = some [r]
            ∧ (runCategoryByName env name fs).result.passed = r.success) := by
  refine ⟨⟨?_, rfl, ?_⟩, ?_⟩
  · simp [run_code_quality_checks, qualityChecks]
  · exact beq_iff_eq
  · intro name hmem hne
    fin_cases hmem
    · exact absurd rfl hne
    · exact ⟨rfl, ⟨_, rfl, rfl⟩⟩
    · exact ⟨rfl, ⟨_, rfl, rfl⟩⟩
    · exact ⟨rfl, ⟨_, rfl, rfl⟩⟩
    · exact ⟨rfl, ⟨_, rfl, rfl⟩⟩
    · exact ⟨rfl, ⟨_, rfl, rfl⟩⟩
    · exact ⟨rfl, ⟨_, rfl, rfl⟩⟩

/-- C6 witness: the quality category with exactly one failing tool, and the
security category in the same world. -/
theorem quality_cardinality_witness :
    (((run_code_quality_checks
        (fun n => if n = "Flake8 Linting" then CmdOutcome.completed 1 "" "E501" 2
          else CmdOutcome.completed 0 "" "" 1)
        ⟨true, []⟩).result.results.getD []).length = 6)
    ∧ ((runCategoryByName
        (fun n => if n = "Flake8 Linting" then CmdOutcome.completed 1 "" "E501" 2
          else CmdOutcome.completed 0 "" "" 1)
        "security_tests" ⟨true, []⟩).commands.length = 1) := by
  have h := quality_cardinality_and_pass_flags
    (fun n => if n = "Flake8 Linting" then CmdOutcome.completed 1 "" "E501" 2
      else CmdOutcome.completed 0 "" "" 1) ⟨true, []⟩
  exact ⟨h.1.1, (h.2 "security_tests" (by decide) (by decide)).1⟩

lemma runCategoryByName_fs_of_ne (env : String → CmdOutcome) (name : String)
    (fs : FileSystem) (h : name ≠ "unit_tests") :
    (runCategoryByName env name fs).fs = fs := by
  simp only [runCategoryByName]
  split_ifs <;> rfl

lemma suiteStep_fs_of_ne (exc : String → Option String)
    (env : String → CmdOutcome) (s : SuiteState) (name : String)
    (h : name ≠ "unit_tests") :
    (suiteStep exc env s name).fs = s.fs := by
  cases hx : exc name <;>
    simp [suiteStep, hx, runCategoryByName_fs_of_ne env name s.fs h]

lemma suiteFold_fs_of_not_mem (exc : String → Option String)
    (env : String → CmdOutcome) :
    ∀ (names : List String) (s : SuiteState), "unit_tests" ∉ names →
      (names.foldl (suiteStep exc env) s).fs = s.fs := by
  intro names
  induction names with
  | nil => intro s _; rfl
  | cons hd tl ih =>
      intro s h
      rw [List.foldl_cons, ih _ (fun hm => h (List.mem_cons_of_mem _ hm)),
        suiteStep_fs_of_ne]
      intro he
      exact h (he ▸ List.mem_cons_self hd tl)

lemma suiteStep_unit_fs (exc : String → Option String)
    (env : String → CmdOutcome) (s : SuiteState)
    (hexc : exc "unit_tests" = none) :
    (suiteStep exc env s "unit_tests").fs = (run_unit_tests env s.fs).fs := by
  simp [suiteStep, hexc, runCategoryByName]

/-- C10: `run_unit_tests` mutates the filesystem before running pytest —
it creates `tests/unit` when absent, and when the directory holds no
`test_*.py` file it writes the placeholder `test_basic.py` (whose name
matches the glob) with the trivially passing test text; the same effect
occurs in single-category mode and in a full-suite run. -/
theorem unit_tests_filesystem_effect (exc : String → Option String)
    (env : String → CmdOutcome) (fs : FileSystem)
    (hexc : exc "unit_tests" = none) :
    (run_unit_tests env fs).fs.unitDirExists = true
    ∧ ((run_unit_tests env fs).fs.unitFiles =
        (let files0 := (if fs.unitDirExists then fs
            else { unitDirExists := true, unitFiles := [] }).unitFiles
         if (files0.filter (fun f => matchesTestGlob f.1)).isEmpty then
           files0 ++ [("test_basic.py", basicTestText)]
         else files0))
    ∧ matchesTestGlob "test_basic.py" = true
    ∧ (main exc env fs (some "unit_tests")).fs = (run_unit_tests env fs).fs
    ∧ (main exc env fs none).fs = (run_unit_tests env fs).fs := by
  have m1 : "unit_tests" ∈ argparseChoices := by decide
  have m2 : "unit_tests" ∈ categoryMethodKeys := by decide
  refine ⟨?_, ?_, by decide, ?_, ?_⟩
  · simp only [run_unit_tests]
    split_ifs with h1 h2 h3 <;> simp_all
  · simp only [run_unit_tests]
    split_ifs <;> rfl
  · simp [main, m1, m2, runCategoryByName]
  · show (run_full_suite exc env fs).fs = _
    have hsplit : (run_full_suite exc env fs).fs =
        (["functional_tests", "integration_tests", "contract_tests",
          "performance_tests", "security_tests"].foldl (suiteStep exc env)
          (suiteStep exc env (suiteStep exc env
            { results := [], commands := [], fs := fs } "code_quality")
            "unit_tests")).fs := rfl
    rw [hsplit, suiteFold_fs_of_not_mem exc env _ _ (by decide),
      suiteStep_unit_fs exc env _ hexc,
      suiteStep_fs_of_ne exc env _ _ (by decide)]

/-- C10 witness: an initially missing `tests/unit` directory gets created
and populated with the placeholder test. -/
theorem unit_tests_filesystem_effect_witness :
    (run_unit_tests (fun _ => CmdOutcome.completed 0 "" "" 1)
        ⟨false, []⟩).fs.unitDirExists = true
    ∧ matchesTestGlob "test_basic.py" = true := by
  have h := unit_tests_filesystem_effect (fun _ => none)
    (fun _ => CmdOutcome.completed 0 "" "" 1) ⟨false, []⟩ rfl
  exact ⟨h.1, h.2.2.1⟩

end QASuite
